import Mathlib

/-!
# Platform reporter and type-size reporter

A shallow embedding of the two programs of the repository,
`platform_specific.cpp` and `size_of_types.cpp`, and the properties of
their output.

* The target a program is built for is a `Config` (the three predefined
  macros the conditional chain tests) and a `Sizes` (what `sizeof` yields
  for each queried type).
* A running program is a `Process`: its arguments, environment, standard
  input and the text written to standard output so far.
* One `std::cout << a << b << ... ;` statement is the list of its inserted
  operands (`Item`), executed left to right by `cout`.
-/

set_option maxRecDepth 8192

/-! ## The target -/

/-- The state of one preprocessor macro: `none` when it is not defined,
`some v` when it is defined and its replacement evaluates to the integer `v`
(`-DNAME` gives `some 1`, `-DNAME=0` gives `some 0`). -/
abbrev Macro := Option Int

/-- The three predefined macros tested by `platform_specific.cpp`. -/
structure Config where
  _WIN32 : Macro
  __APPLE__ : Macro
  __linux__ : Macro
deriving DecidableEq, Repr

/-- The value of `sizeof(T)` on the target for each queried type `T`. -/
structure Sizes where
  sizeof_char : Nat
  sizeof_short : Nat
  sizeof_int : Nat
  sizeof_long : Nat
  sizeof_long_long : Nat
  sizeof_float : Nat
  sizeof_double : Nat
deriving DecidableEq, Repr

/-- The test of `#ifdef NAME`: the macro is defined, whatever its value. -/
def ifdef (m : Macro) : Bool :=
  m.isSome

/-- The test of `#elif NAME`: the controlling expression is non-zero, an
identifier that is not a defined macro being replaced by `0`. -/
def elif (m : Macro) : Bool :=
  match m with
  | none => false
  | some v => v != 0

/-! ## Standard output -/

/-- The run-time surroundings of a program and the text it has written. -/
structure Process where
  argv : List String
  environ : List (String × String)
  stdin : String
  stdout : String
deriving DecidableEq, Repr

/-- One operand inserted into `std::cout` with `<<`. -/
inductive Item where
  | str (s : String)
  | size (n : Nat)
  | endl
deriving DecidableEq, Repr

/-- The characters an operand adds to the stream: a string literal as it is,
a `size_t` in decimal, `std::endl` as a newline. -/
def Item.render : Item → String
  | .str s => s
  | .size n => Nat.repr n
  | .endl => "\n"

/-- Executing `std::cout << i₁ << i₂ << ...;`: each operand is appended to
standard output in turn; nothing else of the process changes. -/
def cout (p : Process) (items : List Item) : Process :=
  items.foldl (fun q i => { q with stdout := q.stdout ++ i.render }) p

/-- Executing a sequence of output statements. -/
def execAll (p : Process) (stmts : List (List Item)) : Process :=
  stmts.foldl cout p

/-! ## `platform_specific.cpp` -/

namespace platform_specific

/-- The output statement kept by the conditional chain
`#ifdef _WIN32 ... #elif __APPLE__ ... #elif __linux__ ... #else ... #endif`. -/
def platformStatement (cfg : Config) : List Item :=
  if ifdef cfg._WIN32 then
    [.str "Running on Windows", .endl]
  else if elif cfg.__APPLE__ then
    [.str "Running on macOS", .endl]
  else if elif cfg.__linux__ then
    [.str "Running on Linux", .endl]
  else
    [.str "Unknown platform", .endl]

/-- The three size statements that follow the conditional chain. -/
def sizeStatements (sz : Sizes) : List (List Item) :=
  [ [.str "Size of int: ", .size sz.sizeof_int, .str " bytes", .endl],
    [.str "Size of long: ", .size sz.sizeof_long, .str " bytes", .endl],
    [.str "Size of long long: ", .size sz.sizeof_long_long, .str " bytes", .endl] ]

/-- The body of `main` after preprocessing: its output statements in order. -/
def statements (cfg : Config) (sz : Sizes) : List (List Item) :=
  platformStatement cfg :: sizeStatements sz

/-- The function `main`: runs the statements and returns `0`. -/
def main (cfg : Config) (sz : Sizes) (p : Process) : Process × Int :=
  (execAll p (statements cfg sz), 0)

end platform_specific

/-! ## `size_of_types.cpp` -/

namespace size_of_types

/-- The body of `main`: seven output statements in order. -/
def statements (sz : Sizes) : List (List Item) :=
  [ [.str "Size of char: ", .size sz.sizeof_char, .str " byte", .endl],
    [.str "Size of short: ", .size sz.sizeof_short, .str " bytes", .endl],
    [.str "Size of int: ", .size sz.sizeof_int, .str " bytes", .endl],
    [.str "Size of long: ", .size sz.sizeof_long, .str " bytes", .endl],
    [.str "Size of long long: ", .size sz.sizeof_long_long, .str " bytes", .endl],
    [.str "Size of float: ", .size sz.sizeof_float, .str " bytes", .endl],
    [.str "Size of double: ", .size sz.sizeof_double, .str " bytes", .endl] ]

/-- The function `main`: runs the statements and returns `0`. -/
def main (sz : Sizes) (p : Process) : Process × Int :=
  (execAll p (statements sz), 0)

end size_of_types

/-! ## Observing a run -/

/-- A freshly started process: nothing written yet. -/
def start (argv : List String) (environ : List (String × String)) (stdin : String) : Process :=
  { argv := argv, environ := environ, stdin := stdin, stdout := "" }

/-- The 64-bit Linux toolchain of the end-to-end scenarios. -/
def linux64 : Sizes :=
  { sizeof_char := 1, sizeof_short := 2, sizeof_int := 4, sizeof_long := 8,
    sizeof_long_long := 8, sizeof_float := 4, sizeof_double := 8 }

/-- Only `__linux__` is predefined (as `1`). -/
def linuxConfig : Config :=
  { _WIN32 := none, __APPLE__ := none, __linux__ := some 1 }

/-- Splitting written text into its newline-terminated lines, `acc` holding
the current line reversed; text after the last newline, if any, is a last
line. -/
def linesAux : List Char → List Char → List String
  | [], acc => if acc = [] then [] else [String.mk acc.reverse]
  | c :: cs, acc =>
    if c = '\n' then String.mk acc.reverse :: linesAux cs []
    else linesAux cs (c :: acc)

/-- The lines of a text, in order, without their newlines. -/
def linesOf (s : String) : List String :=
  linesAux s.data []

/-- The four platform labels. -/
def platformLabels : List String :=
  ["Running on Windows", "Running on macOS", "Running on Linux", "Unknown platform"]

/-- The size line of a type as the specification words it:
`Size of <name>: <decimal size> <unit>`. -/
def sizeLine (name : String) (n : Nat) (unit : String) : String :=
  "Size of " ++ name ++ ": " ++ Nat.repr n ++ " " ++ unit

/-- Reading a run of decimal digits as a number. -/
def readDecimal (cs : List Char) : Nat :=
  cs.foldl (fun a c => 10 * a + (c.toNat - '0'.toNat)) 0

/-- The number printed on a line: its digit characters read in decimal. -/
def numberOn (line : String) : Nat :=
  readDecimal (line.data.filter Char.isDigit)

/-- The lines a run wrote to standard output, started from an empty one. -/
def outputLines (r : Process × Int) : List String :=
  linesOf r.1.stdout

/-- The first line a run wrote. -/
def platformLine (r : Process × Int) : Option String :=
  (outputLines r).head?

/-- A line ends in the text `u`. -/
def endsWith (line u : String) : Bool :=
  u.data.isSuffixOf line.data

/-- The unit rule in words: a size line ends in ` byte` exactly when the
number printed on it is 1. -/
def UnitFollowsNumber (line : String) : Prop :=
  endsWith line " byte" = true ↔ numberOn line = 1

/-- None of the three macros is defined. -/
def noIndicator : Config :=
  { _WIN32 := none, __APPLE__ := none, __linux__ := none }

/-- The first entry of an ordered list of tests that succeeds decides; the
fallback when none does. -/
def firstSucceeding (tests : List (Bool × String)) (fallback : String) : String :=
  match tests.find? (fun t => t.1) with
  | some t => t.2
  | none => fallback

/-- The precedence rule in words: `_WIN32` defined (any value), then
`__APPLE__` non-zero, then `__linux__` non-zero, a macro that is not defined
counting as `0`. -/
def labelByPrecedence (cfg : Config) : String :=
  firstSucceeding
    [ (cfg._WIN32.isSome, "Running on Windows"),
      (decide (cfg.__APPLE__.getD 0 ≠ 0), "Running on macOS"),
      (decide (cfg.__linux__.getD 0 ≠ 0), "Running on Linux") ]
    "Unknown platform"

/-- A word-addressed DSP toolchain (16-bit `char`): `short` and `int` are one
byte wide, as the language allows. -/
def dsp16 : Sizes :=
  { sizeof_char := 1, sizeof_short := 1, sizeof_int := 1, sizeof_long := 2,
    sizeof_long_long := 4, sizeof_float := 2, sizeof_double := 4 }

/-- Only `__APPLE__` is defined, with value `0` (`-D__APPLE__=0`), on a
target that predefines none of the three macros. -/
def appleZero : Config :=
  { _WIN32 := none, __APPLE__ := some 0, __linux__ := none }

/-- Both `_WIN32` and `__linux__` are defined as `1`. -/
def windowsAndLinux : Config :=
  { _WIN32 := some 1, __APPLE__ := none, __linux__ := some 1 }

/-- Only `__APPLE__` is defined (as `1`). -/
def macConfig : Config :=
  { _WIN32 := none, __APPLE__ := some 1, __linux__ := none }

/-- The fallback rule read with "present" as "defined": the first line is
`Unknown platform` exactly when none of the three macros is defined. -/
def UnknownIffNoneDefined (cfg : Config) (sz : Sizes) : Prop :=
  platformLine (platform_specific.main cfg sz (start [] [] "")) = some "Unknown platform" ↔
    (cfg._WIN32 = none ∧ cfg.__APPLE__ = none ∧ cfg.__linux__ = none)

/-- The matching rule without precedence: each indicator whose test succeeds
has its own label on the first line. -/
def LabelMatchesEveryActive (cfg : Config) (sz : Sizes) : Prop :=
  (ifdef cfg._WIN32 = true →
    platformLine (platform_specific.main cfg sz (start [] [] "")) = some "Running on Windows") ∧
  (elif cfg.__APPLE__ = true →
    platformLine (platform_specific.main cfg sz (start [] [] "")) = some "Running on macOS") ∧
  (elif cfg.__linux__ = true →
    platformLine (platform_specific.main cfg sz (start [] [] "")) = some "Running on Linux")

/-! ## Lemmas on output -/

theorem cout_frame (items : List Item) : ∀ p : Process,
    (cout p items).argv = p.argv ∧ (cout p items).environ = p.environ ∧
    (cout p items).stdin = p.stdin ∧
    (cout p items).stdout = items.foldl (fun acc i => acc ++ i.render) p.stdout := by
  induction items with
  | nil => intro p; simp [cout]
  | cons i is ih =>
    intro p
    have h := ih { p with stdout := p.stdout ++ i.render }
    simpa [cout] using h

theorem execAll_frame (stmts : List (List Item)) : ∀ p : Process,
    (execAll p stmts).argv = p.argv ∧ (execAll p stmts).environ = p.environ ∧
    (execAll p stmts).stdin = p.stdin := by
  induction stmts with
  | nil => intro p; simp [execAll]
  | cons st sts ih =>
    intro p
    have h := ih (cout p st)
    have hc := cout_frame st p
    simp only [execAll, List.foldl_cons] at h ⊢
    exact ⟨h.1.trans hc.1, h.2.1.trans hc.2.1, h.2.2.trans hc.2.2.1⟩

theorem digitChar_ne_newline (m : Nat) (h : m < 10) : Nat.digitChar m ≠ '\n' := by
  interval_cases m <;> decide

theorem toDigitsCore_no_newline (fuel : Nat) : ∀ (n : Nat) (ds : List Char),
    '\n' ∉ ds → '\n' ∉ Nat.toDigitsCore 10 fuel n ds := by
  induction fuel with
  | zero => intro n ds h; simpa [Nat.toDigitsCore] using h
  | succ fuel ih =>
    intro n ds h
    have hd : '\n' ∉ Nat.digitChar (n % 10) :: ds := by
      simp only [List.mem_cons, not_or]
      exact ⟨fun e => digitChar_ne_newline (n % 10) (Nat.mod_lt _ (by decide)) e.symm, h⟩
    rw [Nat.toDigitsCore]
    split
    · exact hd
    · exact ih _ _ hd

theorem repr_no_newline (n : Nat) : '\n' ∉ (Nat.repr n).data := by
  unfold Nat.repr Nat.toDigits
  exact toDigitsCore_no_newline _ _ _ (by simp)

theorem linesAux_append (l : List Char) (h : '\n' ∉ l) : ∀ (rest acc : List Char),
    linesAux (l ++ '\n' :: rest) acc = String.mk (acc.reverse ++ l) :: linesAux rest [] := by
  induction l with
  | nil => intro rest acc; simp [linesAux]
  | cons c cs ih =>
    intro rest acc
    have hc : c ≠ '\n' := fun e => h (by simp [e])
    have hcs : '\n' ∉ cs := fun e => h (by simp [e])
    simp [linesAux, hc, ih hcs]

theorem linesOf_line (l rest : String) (h : '\n' ∉ l.data) :
    linesOf (l ++ "\n" ++ rest) = l :: linesOf rest := by
  have := linesAux_append l.data h rest.data []
  simpa [linesOf, String.data_append] using this

theorem sizeLine_no_newline (name unit : String) (n : Nat)
    (hl : '\n' ∉ name.data) (hu : '\n' ∉ unit.data) : '\n' ∉ (sizeLine name n unit).data := by
  simp [sizeLine, String.data_append, hl, hu, repr_no_newline]

theorem size_of_types_stdout (sz : Sizes) (p : Process) :
    (size_of_types.main sz p).1.stdout = p.stdout ++
      (sizeLine "char" sz.sizeof_char "byte" ++ "\n" ++
      (sizeLine "short" sz.sizeof_short "bytes" ++ "\n" ++
      (sizeLine "int" sz.sizeof_int "bytes" ++ "\n" ++
      (sizeLine "long" sz.sizeof_long "bytes" ++ "\n" ++
      (sizeLine "long long" sz.sizeof_long_long "bytes" ++ "\n" ++
      (sizeLine "float" sz.sizeof_float "bytes" ++ "\n" ++
      (sizeLine "double" sz.sizeof_double "bytes" ++ "\n" ++ ""))))))) := by
  apply String.ext
  simp [size_of_types.main, size_of_types.statements, execAll, cout, Item.render, sizeLine,
    String.data_append]

theorem platform_specific_stdout (cfg : Config) (sz : Sizes) (p : Process) (label : String)
    (h : platform_specific.platformStatement cfg = [.str label, .endl]) :
    (platform_specific.main cfg sz p).1.stdout = p.stdout ++
      (label ++ "\n" ++
      (sizeLine "int" sz.sizeof_int "bytes" ++ "\n" ++
      (sizeLine "long" sz.sizeof_long "bytes" ++ "\n" ++
      (sizeLine "long long" sz.sizeof_long_long "bytes" ++ "\n" ++ "")))) := by
  apply String.ext
  simp [platform_specific.main, platform_specific.statements, platform_specific.sizeStatements,
    h, execAll, cout, Item.render, sizeLine, String.data_append]

theorem linesOf_empty : linesOf "" = [] := by
  rfl

theorem start_stdout_append (argv : List String) (environ : List (String × String))
    (stdin s : String) : (start argv environ stdin).stdout ++ s = s := by
  apply String.ext
  simp [start, String.data_append]

theorem size_of_types_lines (sz : Sizes) (argv : List String)
    (environ : List (String × String)) (stdin : String) :
    outputLines (size_of_types.main sz (start argv environ stdin)) =
      [ sizeLine "char" sz.sizeof_char "byte",
        sizeLine "short" sz.sizeof_short "bytes",
        sizeLine "int" sz.sizeof_int "bytes",
        sizeLine "long" sz.sizeof_long "bytes",
        sizeLine "long long" sz.sizeof_long_long "bytes",
        sizeLine "float" sz.sizeof_float "bytes",
        sizeLine "double" sz.sizeof_double "bytes" ] := by
  unfold outputLines
  rw [size_of_types_stdout, start_stdout_append]
  repeat rw [linesOf_line _ _ (sizeLine_no_newline _ _ _ (by decide) (by decide))]
  rw [linesOf_empty]

theorem platform_specific_lines (cfg : Config) (sz : Sizes) (argv : List String)
    (environ : List (String × String)) (stdin : String) (label : String)
    (h : platform_specific.platformStatement cfg = [.str label, .endl])
    (hl : '\n' ∉ label.data) :
    outputLines (platform_specific.main cfg sz (start argv environ stdin)) =
      [ label,
        sizeLine "int" sz.sizeof_int "bytes",
        sizeLine "long" sz.sizeof_long "bytes",
        sizeLine "long long" sz.sizeof_long_long "bytes" ] := by
  unfold outputLines
  rw [platform_specific_stdout cfg sz _ label h, start_stdout_append, linesOf_line _ _ hl]
  repeat rw [linesOf_line _ _ (sizeLine_no_newline _ _ _ (by decide) (by decide))]
  rw [linesOf_empty]

theorem platformStatement_cases (cfg : Config) :
    (cfg._WIN32 ≠ none ∧
      platform_specific.platformStatement cfg = [.str "Running on Windows", .endl]) ∨
    (cfg._WIN32 = none ∧ (∃ v, cfg.__APPLE__ = some v ∧ v ≠ 0) ∧
      platform_specific.platformStatement cfg = [.str "Running on macOS", .endl]) ∨
    (cfg._WIN32 = none ∧ (cfg.__APPLE__ = none ∨ cfg.__APPLE__ = some 0) ∧
      (∃ v, cfg.__linux__ = some v ∧ v ≠ 0) ∧
      platform_specific.platformStatement cfg = [.str "Running on Linux", .endl]) ∨
    (cfg._WIN32 = none ∧ (cfg.__APPLE__ = none ∨ cfg.__APPLE__ = some 0) ∧
      (cfg.__linux__ = none ∨ cfg.__linux__ = some 0) ∧
      platform_specific.platformStatement cfg = [.str "Unknown platform", .endl]) := by
  obtain ⟨w, a, l⟩ := cfg
  cases w with
  | some v => left; simp [platform_specific.platformStatement, ifdef]
  | none =>
    right
    cases a with
    | some v =>
      by_cases hv : v = 0
      · subst hv
        right
        cases l with
        | some u =>
          by_cases hu : u = 0
          · subst hu; right; simp [platform_specific.platformStatement, ifdef, elif]
          · left; simp [platform_specific.platformStatement, ifdef, elif, hu]
        | none => right; simp [platform_specific.platformStatement, ifdef, elif]
      · left; simp [platform_specific.platformStatement, ifdef, elif, hv]
    | none =>
      right
      cases l with
      | some u =>
        by_cases hu : u = 0
        · subst hu; right; simp [platform_specific.platformStatement, ifdef, elif]
        · left; simp [platform_specific.platformStatement, ifdef, elif, hu]
      | none => right; simp [platform_specific.platformStatement, ifdef, elif]

theorem sizeLine_not_label (name unit : String) (n : Nat) :
    sizeLine name n unit ∉ platformLabels := by
  intro h
  have hd : ∀ l ∈ platformLabels, l.data.head? ≠ some 'S' := by decide
  exact hd _ h (by simp [sizeLine, String.data_append])

theorem elif_true_iff (m : Macro) : elif m = true ↔ ∃ v, m = some v ∧ v ≠ 0 := by
  cases m <;> simp [elif]

theorem elif_false_iff (m : Macro) : elif m = false ↔ (m = none ∨ m = some 0) := by
  cases m <;> simp [elif]

theorem platformLine_of_statement (cfg : Config) (sz : Sizes) (argv : List String)
    (environ : List (String × String)) (stdin : String) (label : String)
    (h : platform_specific.platformStatement cfg = [.str label, .endl])
    (hl : '\n' ∉ label.data) :
    platformLine (platform_specific.main cfg sz (start argv environ stdin)) = some label := by
  simp [platformLine, platform_specific_lines cfg sz argv environ stdin label h hl]

theorem platformStatement_label (cfg : Config) :
    ∃ label, label ∈ platformLabels ∧ '\n' ∉ label.data ∧
      platform_specific.platformStatement cfg = [.str label, .endl] := by
  rcases platformStatement_cases cfg with ⟨-, h⟩ | ⟨-, -, h⟩ | ⟨-, -, -, h⟩ | ⟨-, -, -, h⟩
  · exact ⟨_, by decide, by decide, h⟩
  · exact ⟨_, by decide, by decide, h⟩
  · exact ⟨_, by decide, by decide, h⟩
  · exact ⟨_, by decide, by decide, h⟩

theorem foldl_append_eq_foldr (l : List String) : ∀ acc : String,
    l.foldl (fun r s => r ++ s) acc = acc ++ l.foldr (fun x r => x ++ r) "" := by
  induction l with
  | nil => intro acc; simp
  | cons x xs ih => intro acc; simp [ih, String.append_assoc]

theorem stdout_as_lines (l : List String) :
    String.join (l.map (fun x => x ++ "\n")) = l.foldr (fun x acc => x ++ "\n" ++ acc) "" := by
  unfold String.join
  rw [foldl_append_eq_foldr, List.foldr_map]
  simp

theorem digitChar_spec (m : Nat) (h : m < 10) :
    (Nat.digitChar m).isDigit = true ∧ (Nat.digitChar m).toNat - '0'.toNat = m := by
  interval_cases m <;> decide

theorem toDigitsCore_spec (fuel : Nat) : ∀ (n : Nat) (ds : List Char), n < fuel →
    ∃ D : List Char, Nat.toDigitsCore 10 fuel n ds = D ++ ds ∧
      (∀ c ∈ D, c.isDigit = true) ∧ readDecimal D = n := by
  induction fuel with
  | zero => intro n ds h; exact absurd h (Nat.not_lt_zero _)
  | succ fuel ih =>
    intro n ds hn
    have hd := digitChar_spec (n % 10) (Nat.mod_lt _ (by decide))
    rw [Nat.toDigitsCore]
    split
    · rename_i h0
      refine ⟨[Nat.digitChar (n % 10)], rfl, by simpa using hd.1, ?_⟩
      simp only [readDecimal, List.foldl_cons, List.foldl_nil, hd.2]
      omega
    · rename_i h0
      obtain ⟨D, hD, hdig, hval⟩ := ih (n / 10) (Nat.digitChar (n % 10) :: ds) (by omega)
      refine ⟨D ++ [Nat.digitChar (n % 10)], by simp [hD], ?_, ?_⟩
      · intro c hc
        rcases List.mem_append.mp hc with h | h
        · exact hdig c h
        · rw [List.mem_singleton.mp h]; exact hd.1
      · unfold readDecimal at hval ⊢
        rw [List.foldl_append, hval]
        simp only [List.foldl_cons, List.foldl_nil, hd.2]
        omega

theorem repr_spec (n : Nat) :
    (∀ c ∈ (Nat.repr n).data, c.isDigit = true) ∧ readDecimal (Nat.repr n).data = n := by
  obtain ⟨D, hD, hdig, hval⟩ := toDigitsCore_spec (n + 1) n [] (Nat.lt_succ_self n)
  have : (Nat.repr n).data = D := by
    simp [Nat.repr, Nat.toDigits, hD, List.asString]
  rw [this]
  exact ⟨hdig, hval⟩

theorem numberOn_sizeLine (name unit : String) (n : Nat)
    (hn : name.data.filter Char.isDigit = []) (hu : unit.data.filter Char.isDigit = []) :
    numberOn (sizeLine name n unit) = n := by
  have hr := repr_spec n
  have hf : (Nat.repr n).data.filter Char.isDigit = (Nat.repr n).data :=
    List.filter_eq_self.mpr hr.1
  simp only [numberOn, sizeLine, String.data_append, List.filter_append, hn, hu, hf]
  simpa using hr.2

/-! ## The platform line -/

/-- C1 as stated fails: with `__APPLE__` defined as `0` and the other two
macros not defined, an indicator is present, yet the first line is
`Unknown platform`. -/
theorem unknown_platform_with_macro_defined :
    appleZero.__APPLE__ = some 0 ∧
    outputLines (platform_specific.main appleZero linux64 (start [] [] "")) =
      ["Unknown platform", "Size of int: 4 bytes", "Size of long: 8 bytes",
       "Size of long long: 8 bytes"] ∧
    ¬ UnknownIffNoneDefined appleZero linux64 := by
  unfold UnknownIffNoneDefined
  decide

/-- C1 (amended): for every configuration and every assignment of sizes the
run writes exactly one line that is a platform label, it is the first line and
one of the four literals, and it is `Unknown platform` if and only if none of
the three tests succeeds: `_WIN32` is not defined and `__APPLE__` and
`__linux__` are each not defined or defined as `0`. -/
theorem platform_line_exclusive_exhaustive (cfg : Config) (sz : Sizes) (argv : List String)
    (environ : List (String × String)) (stdin : String) :
    ∃ label : String, label ∈ platformLabels ∧
      platformLine (platform_specific.main cfg sz (start argv environ stdin)) = some label ∧
      (outputLines (platform_specific.main cfg sz (start argv environ stdin))).filter
        (fun l => decide (l ∈ platformLabels)) = [label] ∧
      (label = "Unknown platform" ↔
        cfg._WIN32 = none ∧ (cfg.__APPLE__ = none ∨ cfg.__APPLE__ = some 0) ∧
          (cfg.__linux__ = none ∨ cfg.__linux__ = some 0)) := by
  have hfilter : ∀ label : String, label ∈ platformLabels →
      [ label, sizeLine "int" sz.sizeof_int "bytes", sizeLine "long" sz.sizeof_long "bytes",
        sizeLine "long long" sz.sizeof_long_long "bytes" ].filter
        (fun l => decide (l ∈ platformLabels)) = [label] := by
    intro label hl
    simp [List.filter, hl, sizeLine_not_label]
  rcases platformStatement_cases cfg with ⟨hw, h⟩ | ⟨hw, ⟨v, ha, hv⟩, h⟩ |
      ⟨hw, ha, ⟨v, hl, hv⟩, h⟩ | ⟨hw, ha, hl, h⟩
  · have hlines := platform_specific_lines cfg sz argv environ stdin _ h (by decide)
    refine ⟨"Running on Windows", by decide, by simp [platformLine, hlines], ?_, ?_⟩
    · rw [hlines]; exact hfilter _ (by decide)
    · exact ⟨fun e => absurd e (by decide), fun e => absurd e.1 hw⟩
  · have hlines := platform_specific_lines cfg sz argv environ stdin _ h (by decide)
    refine ⟨"Running on macOS", by decide, by simp [platformLine, hlines], ?_, ?_⟩
    · rw [hlines]; exact hfilter _ (by decide)
    · refine ⟨fun e => absurd e (by decide), fun e => ?_⟩
      rcases e.2.1 with e | e
      · simp [ha] at e
      · rw [ha] at e; exact absurd (Option.some.inj e) hv
  · have hlines := platform_specific_lines cfg sz argv environ stdin _ h (by decide)
    refine ⟨"Running on Linux", by decide, by simp [platformLine, hlines], ?_, ?_⟩
    · rw [hlines]; exact hfilter _ (by decide)
    · refine ⟨fun e => absurd e (by decide), fun e => ?_⟩
      rcases e.2.2 with e | e
      · simp [hl] at e
      · rw [hl] at e; exact absurd (Option.some.inj e) hv
  · have hlines := platform_specific_lines cfg sz argv environ stdin _ h (by decide)
    refine ⟨"Unknown platform", by decide, by simp [platformLine, hlines], ?_, ?_⟩
    · rw [hlines]; exact hfilter _ (by decide)
    · exact ⟨fun _ => ⟨hw, ha, hl⟩, fun _ => rfl⟩

/-- C2 as stated fails: with `_WIN32` and `__linux__` both defined as `1` the
indicator `__linux__` is active, yet the first line is `Running on Windows`. -/
theorem linux_active_but_windows_printed :
    elif windowsAndLinux.__linux__ = true ∧
    outputLines (platform_specific.main windowsAndLinux linux64 (start [] [] "")) =
      ["Running on Windows", "Size of int: 4 bytes", "Size of long: 8 bytes",
       "Size of long long: 8 bytes"] ∧
    ¬ LabelMatchesEveryActive windowsAndLinux linux64 := by
  unfold LabelMatchesEveryActive
  decide

/-- C2 (amended): the first line matches the active indicator that comes first
in the chain: `Running on Windows` whenever `_WIN32` is defined; `Running on
macOS` whenever `__APPLE__` is non-zero and `_WIN32` is not defined; `Running
on Linux` whenever `__linux__` is non-zero, `_WIN32` is not defined and
`__APPLE__` is not non-zero. -/
theorem platform_label_matches_first_active (cfg : Config) (sz : Sizes) (argv : List String)
    (environ : List (String × String)) (stdin : String) :
    (ifdef cfg._WIN32 = true →
      platformLine (platform_specific.main cfg sz (start argv environ stdin)) =
        some "Running on Windows") ∧
    (ifdef cfg._WIN32 = false → elif cfg.__APPLE__ = true →
      platformLine (platform_specific.main cfg sz (start argv environ stdin)) =
        some "Running on macOS") ∧
    (ifdef cfg._WIN32 = false → elif cfg.__APPLE__ = false → elif cfg.__linux__ = true →
      platformLine (platform_specific.main cfg sz (start argv environ stdin)) =
        some "Running on Linux") := by
  refine ⟨fun hw => ?_, fun hw ha => ?_, fun hw ha hl => ?_⟩
  · have h : platform_specific.platformStatement cfg = [.str "Running on Windows", .endl] := by
      simp [platform_specific.platformStatement, hw]
    simp [platformLine, platform_specific_lines cfg sz argv environ stdin _ h (by decide)]
  · have h : platform_specific.platformStatement cfg = [.str "Running on macOS", .endl] := by
      simp [platform_specific.platformStatement, hw, ha]
    simp [platformLine, platform_specific_lines cfg sz argv environ stdin _ h (by decide)]
  · have h : platform_specific.platformStatement cfg = [.str "Running on Linux", .endl] := by
      simp [platform_specific.platformStatement, hw, ha, hl]
    simp [platformLine, platform_specific_lines cfg sz argv environ stdin _ h (by decide)]

/-- Witness for C2 (amended), one configuration per label. -/
theorem platform_label_matches_first_active_witness :
    (ifdef windowsAndLinux._WIN32 = true ∧
      platformLine (platform_specific.main windowsAndLinux linux64 (start [] [] "")) =
        some "Running on Windows") ∧
    (ifdef macConfig._WIN32 = false ∧ elif macConfig.__APPLE__ = true ∧
      platformLine (platform_specific.main macConfig linux64 (start [] [] "")) =
        some "Running on macOS") ∧
    (ifdef linuxConfig._WIN32 = false ∧ elif linuxConfig.__APPLE__ = false ∧
      elif linuxConfig.__linux__ = true ∧
      platformLine (platform_specific.main linuxConfig linux64 (start [] [] "")) =
        some "Running on Linux") :=
  ⟨⟨by decide,
    (platform_label_matches_first_active windowsAndLinux linux64 [] [] "").1 (by decide)⟩,
   ⟨by decide, by decide,
    (platform_label_matches_first_active macConfig linux64 [] [] "").2.1
      (by decide) (by decide)⟩,
   ⟨by decide, by decide, by decide,
    (platform_label_matches_first_active linuxConfig linux64 [] [] "").2.2
      (by decide) (by decide) (by decide)⟩⟩

/-! ## The size lines -/

/-- C3, the programs run on a target where `short` and `int` are one byte
wide: the type-size reporter writes `Size of short: 1 bytes` and `Size of int:
1 bytes`, and the platform reporter writes `Size of int: 1 bytes`, lines that
report 1 and do not end in ` byte`, so the unit rule fails on the output of
both programs, while the `char` line of the same run, `Size of char: 1
byte`, follows it. -/
theorem size_one_printed_with_plural_unit :
    outputLines (size_of_types.main dsp16 (start [] [] "")) =
      ["Size of char: 1 byte", "Size of short: 1 bytes", "Size of int: 1 bytes",
       "Size of long: 2 bytes", "Size of long long: 4 bytes", "Size of float: 2 bytes",
       "Size of double: 4 bytes"] ∧
    outputLines (platform_specific.main noIndicator dsp16 (start [] [] "")) =
      ["Unknown platform", "Size of int: 1 bytes", "Size of long: 2 bytes",
       "Size of long long: 4 bytes"] ∧
    UnitFollowsNumber "Size of char: 1 byte" ∧
    (numberOn "Size of short: 1 bytes" = 1 ∧ endsWith "Size of short: 1 bytes" " byte" = false) ∧
    ¬ (∀ line ∈ outputLines (size_of_types.main dsp16 (start [] [] "")),
        UnitFollowsNumber line) ∧
    ¬ (∀ line ∈ (outputLines (platform_specific.main noIndicator dsp16 (start [] [] ""))).tail,
        UnitFollowsNumber line) := by
  refine ⟨by decide, by decide, ?_, ⟨by decide, by decide⟩, fun h => ?_, fun h => ?_⟩
  · unfold UnitFollowsNumber
    decide
  · have h1 := h "Size of short: 1 bytes" (by decide)
    unfold UnitFollowsNumber at h1
    exact absurd (h1.mpr (by decide)) (by decide)
  · have h1 := h "Size of int: 1 bytes" (by decide)
    unfold UnitFollowsNumber at h1
    exact absurd (h1.mpr (by decide)) (by decide)

/-- C4: for every assignment of sizes the type-size reporter writes exactly
seven lines, one per type in the order char, short, int, long, long long,
float, double, the line of a type being `Size of <name>: <decimal size>
<unit>` with that type's own name and size (the numbers on the lines read
back as the seven sizes); each line ends with a newline and nothing else is
written. -/
theorem size_of_types_seven_lines (sz : Sizes) (argv : List String)
    (environ : List (String × String)) (stdin : String) :
    outputLines (size_of_types.main sz (start argv environ stdin)) =
      [ sizeLine "char" sz.sizeof_char "byte",
        sizeLine "short" sz.sizeof_short "bytes",
        sizeLine "int" sz.sizeof_int "bytes",
        sizeLine "long" sz.sizeof_long "bytes",
        sizeLine "long long" sz.sizeof_long_long "bytes",
        sizeLine "float" sz.sizeof_float "bytes",
        sizeLine "double" sz.sizeof_double "bytes" ] ∧
    (outputLines (size_of_types.main sz (start argv environ stdin))).length = 7 ∧
    (outputLines (size_of_types.main sz (start argv environ stdin))).map numberOn =
      [ sz.sizeof_char, sz.sizeof_short, sz.sizeof_int, sz.sizeof_long, sz.sizeof_long_long,
        sz.sizeof_float, sz.sizeof_double ] ∧
    (size_of_types.main sz (start argv environ stdin)).1.stdout =
      String.join ((outputLines (size_of_types.main sz (start argv environ stdin))).map
        (fun l => l ++ "\n")) := by
  have h := size_of_types_lines sz argv environ stdin
  refine ⟨h, by rw [h]; rfl, ?_, ?_⟩
  · rw [h]
    simp only [List.map_cons, List.map_nil]
    repeat rw [numberOn_sizeLine _ _ _ (by decide) (by decide)]
  · rw [h, size_of_types_stdout, start_stdout_append, stdout_as_lines]
    rfl

/-- C5: for every indicator configuration and every assignment of sizes the
platform reporter writes exactly four lines: first the platform line, one of
the four labels, then `Size of int: <n> bytes`, `Size of long: <n> bytes` and
`Size of long long: <n> bytes` in that order, each `<n>` being the decimal
size of that type on the target (the numbers on the three lines read back as
those sizes); each line ends with a newline and nothing else is written. -/
theorem platform_specific_four_lines (cfg : Config) (sz : Sizes) (argv : List String)
    (environ : List (String × String)) (stdin : String) :
    ∃ label : String, label ∈ platformLabels ∧
      outputLines (platform_specific.main cfg sz (start argv environ stdin)) =
        [ label,
          sizeLine "int" sz.sizeof_int "bytes",
          sizeLine "long" sz.sizeof_long "bytes",
          sizeLine "long long" sz.sizeof_long_long "bytes" ] ∧
      (outputLines (platform_specific.main cfg sz (start argv environ stdin))).length = 4 ∧
      (outputLines (platform_specific.main cfg sz (start argv environ stdin))).tail.map numberOn =
        [ sz.sizeof_int, sz.sizeof_long, sz.sizeof_long_long ] ∧
      (platform_specific.main cfg sz (start argv environ stdin)).1.stdout =
        String.join ((outputLines (platform_specific.main cfg sz (start argv environ stdin))).map
          (fun l => l ++ "\n")) := by
  obtain ⟨label, hmem, hnl, hst⟩ := platformStatement_label cfg
  have h := platform_specific_lines cfg sz argv environ stdin label hst hnl
  refine ⟨label, hmem, h, by rw [h]; rfl, ?_, ?_⟩
  · rw [h]
    simp only [List.tail_cons, List.map_cons, List.map_nil]
    repeat rw [numberOn_sizeLine _ _ _ (by decide) (by decide)]
  · rw [h, platform_specific_stdout cfg sz _ label hst, start_stdout_append, stdout_as_lines]
    rfl

/-! ## End-to-end scenarios -/

/-- C6: on a 64-bit Linux target (only `__linux__` active, int 4, long 8,
long long 8) the platform reporter writes exactly the four lines `Running on
Linux`, `Size of int: 4 bytes`, `Size of long: 8 bytes`, `Size of long long:
8 bytes`, each ended by a newline, and nothing else. -/
theorem platform_specific_linux64 (argv : List String) (environ : List (String × String))
    (stdin : String) :
    (platform_specific.main linuxConfig linux64 (start argv environ stdin)).1.stdout =
      "Running on Linux\nSize of int: 4 bytes\nSize of long: 8 bytes\nSize of long long: 8 bytes\n" ∧
    outputLines (platform_specific.main linuxConfig linux64 (start argv environ stdin)) =
      ["Running on Linux", "Size of int: 4 bytes", "Size of long: 8 bytes",
       "Size of long long: 8 bytes"] := by
  constructor <;> rfl

/-- C7: on the same 64-bit Linux target (char 1, short 2, int 4, long 8, long
long 8, float 4, double 8) the type-size reporter writes exactly the seven
lines from `Size of char: 1 byte` to `Size of double: 8 bytes`, each ended by
a newline, and nothing else. -/
theorem size_of_types_linux64 (argv : List String) (environ : List (String × String))
    (stdin : String) :
    (size_of_types.main linux64 (start argv environ stdin)).1.stdout =
      "Size of char: 1 byte\nSize of short: 2 bytes\nSize of int: 4 bytes\nSize of long: 8 bytes\nSize of long long: 8 bytes\nSize of float: 4 bytes\nSize of double: 8 bytes\n" ∧
    outputLines (size_of_types.main linux64 (start argv environ stdin)) =
      ["Size of char: 1 byte", "Size of short: 2 bytes", "Size of int: 4 bytes",
       "Size of long: 8 bytes", "Size of long long: 8 bytes", "Size of float: 4 bytes",
       "Size of double: 8 bytes"] := by
  constructor <;> rfl

/-! ## Exit status and determinism -/

/-- C8: both programs return the success status 0, for every indicator
configuration, every assignment of sizes and every process they are started
in; `main` is a total function, so every run ends, and with no other status. -/
theorem main_returns_zero (cfg : Config) (sz : Sizes) (p : Process) :
    (platform_specific.main cfg sz p).2 = 0 ∧ (size_of_types.main sz p).2 = 0 :=
  ⟨rfl, rfl⟩

/-- C9: the output and the exit status of each program are a function of the
target alone: two runs on the same target, started with any arguments,
environment and standard input, write the same text and return the same
status, and a run leaves its arguments, environment and standard input as it
found them (nothing is read). -/
theorem output_determined_by_target (cfg : Config) (sz : Sizes)
    (argv argv' : List String) (environ environ' : List (String × String))
    (stdin stdin' : String) :
    ((platform_specific.main cfg sz (start argv environ stdin)).1.stdout =
        (platform_specific.main cfg sz (start argv' environ' stdin')).1.stdout ∧
      (platform_specific.main cfg sz (start argv environ stdin)).2 =
        (platform_specific.main cfg sz (start argv' environ' stdin')).2) ∧
    ((size_of_types.main sz (start argv environ stdin)).1.stdout =
        (size_of_types.main sz (start argv' environ' stdin')).1.stdout ∧
      (size_of_types.main sz (start argv environ stdin)).2 =
        (size_of_types.main sz (start argv' environ' stdin')).2) ∧
    ((platform_specific.main cfg sz (start argv environ stdin)).1.argv = argv ∧
      (platform_specific.main cfg sz (start argv environ stdin)).1.environ = environ ∧
      (platform_specific.main cfg sz (start argv environ stdin)).1.stdin = stdin) ∧
    ((size_of_types.main sz (start argv environ stdin)).1.argv = argv ∧
      (size_of_types.main sz (start argv environ stdin)).1.environ = environ ∧
      (size_of_types.main sz (start argv environ stdin)).1.stdin = stdin) := by
  obtain ⟨label, -, -, hst⟩ := platformStatement_label cfg
  refine ⟨⟨?_, rfl⟩, ⟨?_, rfl⟩, ?_, ?_⟩
  · rw [platform_specific_stdout cfg sz _ label hst, platform_specific_stdout cfg sz _ label hst,
      start_stdout_append, start_stdout_append]
  · rw [size_of_types_stdout, size_of_types_stdout, start_stdout_append, start_stdout_append]
  · exact execAll_frame (platform_specific.statements cfg sz) (start argv environ stdin)
  · exact execAll_frame (size_of_types.statements sz) (start argv environ stdin)

/-! ## Precedence of the conditional chain -/

/-- C10: the platform line is the label of the first test that succeeds in the
order `_WIN32` defined (any value), `__APPLE__` non-zero, `__linux__`
non-zero, a macro that is not defined counting as `0`, and `Unknown platform`
when none does; so the label is Windows exactly when `_WIN32` is defined,
macOS exactly when `_WIN32` is not defined and `__APPLE__` is non-zero, Linux
exactly when neither holds and `__linux__` is non-zero, and an `__APPLE__` or
`__linux__` defined as `0` does not select its label. -/
theorem platform_line_by_precedence (cfg : Config) (sz : Sizes) (argv : List String)
    (environ : List (String × String)) (stdin : String) :
    platformLine (platform_specific.main cfg sz (start argv environ stdin)) =
      some (labelByPrecedence cfg) ∧
    (platformLine (platform_specific.main cfg sz (start argv environ stdin)) =
        some "Running on Windows" ↔ cfg._WIN32 ≠ none) ∧
    (platformLine (platform_specific.main cfg sz (start argv environ stdin)) =
        some "Running on macOS" ↔
      cfg._WIN32 = none ∧ ∃ v, cfg.__APPLE__ = some v ∧ v ≠ 0) ∧
    (platformLine (platform_specific.main cfg sz (start argv environ stdin)) =
        some "Running on Linux" ↔
      cfg._WIN32 = none ∧ (cfg.__APPLE__ = none ∨ cfg.__APPLE__ = some 0) ∧
        ∃ v, cfg.__linux__ = some v ∧ v ≠ 0) ∧
    platformLine (platform_specific.main { cfg with __APPLE__ := some 0 } sz
        (start argv environ stdin)) ≠ some "Running on macOS" ∧
    platformLine (platform_specific.main { cfg with __linux__ := some 0 } sz
        (start argv environ stdin)) ≠ some "Running on Linux" := by
  have key : ∀ c : Config,
      platformLine (platform_specific.main c sz (start argv environ stdin)) =
        some (labelByPrecedence c) ∧
      (platformLine (platform_specific.main c sz (start argv environ stdin)) =
          some "Running on Windows" ↔ c._WIN32 ≠ none) ∧
      (platformLine (platform_specific.main c sz (start argv environ stdin)) =
          some "Running on macOS" ↔
        c._WIN32 = none ∧ ∃ v, c.__APPLE__ = some v ∧ v ≠ 0) ∧
      (platformLine (platform_specific.main c sz (start argv environ stdin)) =
          some "Running on Linux" ↔
        c._WIN32 = none ∧ (c.__APPLE__ = none ∨ c.__APPLE__ = some 0) ∧
          ∃ v, c.__linux__ = some v ∧ v ≠ 0) := by
    intro c
    rcases platformStatement_cases c with ⟨hw, h⟩ | ⟨hw, ⟨v, ha, hv⟩, h⟩ |
        ⟨hw, ha, ⟨v, hl, hv⟩, h⟩ | ⟨hw, ha, hl, h⟩
    · rw [platformLine_of_statement c sz argv environ stdin _ h (by decide)]
      obtain ⟨w, hw'⟩ := Option.ne_none_iff_exists'.mp hw
      simp [labelByPrecedence, firstSucceeding, hw']
    · rw [platformLine_of_statement c sz argv environ stdin _ h (by decide)]
      simp [labelByPrecedence, firstSucceeding, hw, ha, hv]
    · rw [platformLine_of_statement c sz argv environ stdin _ h (by decide)]
      rcases ha with ha | ha <;> simp [labelByPrecedence, firstSucceeding, hw, ha, hl, hv]
    · rw [platformLine_of_statement c sz argv environ stdin _ h (by decide)]
      rcases ha with ha | ha <;> rcases hl with hl | hl <;>
        simp [labelByPrecedence, firstSucceeding, hw, ha, hl]
  refine ⟨(key cfg).1, (key cfg).2.1, (key cfg).2.2.1, (key cfg).2.2.2, ?_, ?_⟩
  · intro h
    have h2 := ((key { cfg with __APPLE__ := some 0 }).2.2.1.mp h).2
    simp at h2
  · intro h
    have h2 := ((key { cfg with __linux__ := some 0 }).2.2.2.mp h).2.2
    simp at h2
